import Mathlib

/-!
Verification of the clause-compliance engine of the compliance-checker
repository (Backend/src/compliance_checker and Backend/src/llm_provider),
as a shallow embedding in Lean 4.

Python strings are Lean `String`, Python dictionaries of fixed shape are
structures, and the two dictionaries whose *dict semantics* matter
(the per-clause match dictionaries, which the verifier tuple-unpacks) are
association lists in insertion order.  Machine-level concerns do not arise.
-/

namespace ComplianceChecker

/-! ## Characters and string helpers -/

/-- The double-quote character. -/
def dqChar : Char := Char.ofNat 34

/-- The backslash character. -/
def bsChar : Char := Char.ofNat 92

/-- The left-brace character. -/
def lbChar : Char := Char.ofNat 123

/-- The right-brace character. -/
def rbChar : Char := Char.ofNat 125

/-- The single-quote character. -/
def sqChar : Char := Char.ofNat 39

/-- The backtick character. -/
def btChar : Char := Char.ofNat 96

/-- Single-character strings used to assemble literals that contain
characters awkward to write directly. -/
def dqS : String := String.singleton dqChar

def bsS : String := String.singleton bsChar

def lbS : String := String.singleton lbChar

def rbS : String := String.singleton rbChar

def sqS : String := String.singleton sqChar

/-- Substring test on character lists: Python `needle in haystack`. -/
def listContainsSub (needle : List Char) : List Char → Bool
  | [] => needle.isEmpty
  | c :: rest => needle.isPrefixOf (c :: rest) || listContainsSub needle rest

/-- Python `needle in haystack` on strings (case-sensitive). -/
def strContains (haystack needle : String) : Bool :=
  listContainsSub needle.data haystack.data

/-- Python `str.lower()` (ASCII-adequate for this code base). -/
def pyLower (s : String) : String := ⟨s.data.map Char.toLower⟩

/-- Python `str.capitalize()`: first character upper-cased, rest lower-cased. -/
def pyCapitalize (s : String) : String :=
  match s.data with
  | [] => ""
  | c :: cs => ⟨c.toUpper :: cs.map Char.toLower⟩

/-- Case-insensitive keyword containment, exactly as the risk classifier
tests it: `keyword.lower() in matched_text.lower()`. -/
def kwInText (kw text : String) : Bool :=
  listContainsSub (pyLower kw).data (pyLower text).data

/-! ## JSON values

A model of the JSON values the pipeline manipulates.  Numbers are
restricted to integers: no number in the verified code paths is
fractional, and the restriction only shrinks the set of inputs on which
the `json_loads` model succeeds. -/

inductive Json : Type where
  | null : Json
  | bool : Bool → Json
  | num : Int → Json
  | str : String → Json
  | arr : List Json → Json
  | obj : List (String × Json) → Json
  deriving Repr

/-! ## The Python `json.loads` model

`Modelled from the spec:` the verified source calls the Python standard
library `json.loads`, which is not part of this repository.  The parser
below follows the JSON grammar `json.loads` implements, restricted to
integer numerals and to the single-character escapes
(double quote, backslash, slash, b, f, n, r, t); inputs outside this
subset are rejected.  In particular objects and arrays accept **no
trailing comma**, and a raw text that does not begin with a JSON value
(for instance one starting with a markdown fence backtick) is rejected. -/

/-- JSON whitespace. -/
def isJsonWs (c : Char) : Bool :=
  c = ' ' || c = Char.ofNat 9 || c = Char.ofNat 10 || c = Char.ofNat 13

/-- Skip leading JSON whitespace. -/
def skipWs (s : List Char) : List Char := s.dropWhile isJsonWs

/-- Parse the body of a JSON string literal (the opening quote already
consumed), returning the decoded string and the rest of the input. -/
def parseStringBody (acc : List Char) : List Char → Except String (String × List Char)
  | [] => .error "Unterminated string"
  | c :: rest =>
    if c = dqChar then .ok (⟨acc.reverse⟩, rest)
    else if c = bsChar then
      match rest with
      | [] => .error "Unterminated string escape"
      | e :: rest2 =>
        if e = dqChar then parseStringBody (dqChar :: acc) rest2
        else if e = bsChar then parseStringBody (bsChar :: acc) rest2
        else if e = '/' then parseStringBody ('/' :: acc) rest2
        else if e = 'b' then parseStringBody (Char.ofNat 8 :: acc) rest2
        else if e = 'f' then parseStringBody (Char.ofNat 12 :: acc) rest2
        else if e = 'n' then parseStringBody (Char.ofNat 10 :: acc) rest2
        else if e = 'r' then parseStringBody (Char.ofNat 13 :: acc) rest2
        else if e = 't' then parseStringBody (Char.ofNat 9 :: acc) rest2
        else .error "Invalid string escape"
    else if c.toNat < 32 then .error "Invalid control character"
    else parseStringBody (c :: acc) rest

/-- Parse a run of decimal digits. -/
def parseDigits (acc : Nat) : List Char → Nat × List Char
  | [] => (acc, [])
  | c :: rest =>
    if c.isDigit then parseDigits (acc * 10 + (c.toNat - 48)) rest
    else (acc, c :: rest)

/-- Parse a JSON integer numeral (leading zeros rejected, fractions and
exponents outside the modelled subset). -/
def parseNumber (s : List Char) : Except String (Json × List Char) :=
  let (neg, s1) := match s with
    | c :: rest => if c = '-' then (true, rest) else (false, s)
    | [] => (false, s)
  match s1 with
  | [] => .error "Expecting value"
  | c :: _ =>
    if !c.isDigit then .error "Expecting value"
    else
      let (n, rest) := parseDigits 0 s1
      if c = '0' && (match s1 with | _ :: d :: _ => d.isDigit | _ => false) then
        .error "Leading zeros are not allowed"
      else
        match rest with
        | d :: _ =>
          if d = '.' || d = 'e' || d = 'E' then .error "Non-integer numeral"
          else .ok (.num (if neg then -(n : Int) else (n : Int)), rest)
        | [] => .ok (.num (if neg then -(n : Int) else (n : Int)), rest)

mutual

/-- Parse one JSON value. -/
def parseValue : Nat → List Char → Except String (Json × List Char)
  | 0, _ => .error "Input too deeply nested"
  | fuel + 1, s =>
    match skipWs s with
    | [] => .error "Expecting value"
    | c :: rest =>
      if c = dqChar then
        match parseStringBody [] rest with
        | .ok (str, rest2) => .ok (.str str, rest2)
        | .error e => .error e
      else if c = 't' then
        if ['r', 'u', 'e'].isPrefixOf rest then .ok (.bool true, rest.drop 3)
        else .error "Expecting value"
      else if c = 'f' then
        if ['a', 'l', 's', 'e'].isPrefixOf rest then .ok (.bool false, rest.drop 4)
        else .error "Expecting value"
      else if c = 'n' then
        if ['u', 'l', 'l'].isPrefixOf rest then .ok (.null, rest.drop 3)
        else .error "Expecting value"
      else if c = lbChar then parseObject fuel rest
      else if c = '[' then parseArray fuel rest
      else parseNumber (c :: rest)

/-- Parse a JSON object after its opening brace. -/
def parseObject : Nat → List Char → Except String (Json × List Char)
  | 0, _ => .error "Input too deeply nested"
  | fuel + 1, s =>
    match skipWs s with
    | [] => .error "Expecting property name"
    | c :: rest =>
      if c = rbChar then .ok (.obj [], rest)
      else parseMembers fuel [] (c :: rest)

/-- Parse the members of a JSON object; the next token must be a string
key (so a comma directly before the closing brace is an error, exactly
as in `json.loads`). -/
def parseMembers : Nat → List (String × Json) → List Char →
    Except String (Json × List Char)
  | 0, _, _ => .error "Input too deeply nested"
  | fuel + 1, acc, s =>
    match skipWs s with
    | [] => .error "Expecting property name"
    | c :: rest =>
      if c = dqChar then
        match parseStringBody [] rest with
        | .error e => .error e
        | .ok (key, rest2) =>
          match skipWs rest2 with
          | ':' :: rest3 =>
            match parseValue fuel rest3 with
            | .error e => .error e
            | .ok (v, rest4) =>
              match skipWs rest4 with
              | ',' :: rest5 => parseMembers fuel ((key, v) :: acc) rest5
              | c2 :: rest5 =>
                if c2 = rbChar then .ok (.obj ((key, v) :: acc).reverse, rest5)
                else .error "Expecting comma delimiter"
              | [] => .error "Expecting comma delimiter"
          | _ => .error "Expecting colon delimiter"
      else .error "Expecting property name"

/-- Parse a JSON array after its opening bracket. -/
def parseArray : Nat → List Char → Except String (Json × List Char)
  | 0, _ => .error "Input too deeply nested"
  | fuel + 1, s =>
    match skipWs s with
    | [] => .error "Expecting value"
    | c :: rest =>
      if c = ']' then .ok (.arr [], rest)
      else parseElements fuel [] (c :: rest)

/-- Parse the elements of a JSON array. -/
def parseElements : Nat → List Json → List Char →
    Except String (Json × List Char)
  | 0, _, _ => .error "Input too deeply nested"
  | fuel + 1, acc, s =>
    match parseValue fuel s with
    | .error e => .error e
    | .ok (v, rest) =>
      match skipWs rest with
      | ',' :: rest2 => parseElements fuel (v :: acc) rest2
      | ']' :: rest2 => .ok (.arr (v :: acc).reverse, rest2)
      | _ => .error "Expecting comma delimiter"

end

/-- The model of Python `json.loads`: parse one value and require only
whitespace after it. -/
def json_loads (s : String) : Except String Json :=
  match parseValue (2 * s.length + 2) s.data with
  | .error e => .error e
  | .ok (v, rest) =>
    if skipWs rest = [] then .ok v else .error "Extra data"

/-! ## `safe_json_response` (src/llm_provider/safe_json_helper.py)

```python
def safe_json_response(text: str):
    try:
        return json.loads(text)
    except json.JSONDecodeError:
        match = re.search(r"\{.*\}", text, re.DOTALL)
        if match:
            raw_json = match.group(0)
            safe_json = re.sub(r'\\(?![\\/"bfnrtu])', r'\\\\', raw_json)
            return json.loads(safe_json)
        raise
```
-/

/-- The prefix of a list up to and including the last occurrence of `c`,
or `none` when `c` does not occur. -/
def takeToLast (c : Char) (l : List Char) : Option (List Char) :=
  match l.reverse.dropWhile (· ≠ c) with
  | [] => none
  | r => some r.reverse

/-- The match of the greedy regex `\{.*\}` with DOTALL: from the first
left brace to the last right brace after it. -/
def extractBraces (s : List Char) : Option (List Char) :=
  match s.dropWhile (· ≠ lbChar) with
  | [] => none
  | _ :: rest => (takeToLast rbChar rest).map (fun m => lbChar :: m)

/-- `re.sub(r'\\(?![\\/"bfnrtu])', r'\\\\', s)`: double every backslash
not followed by a valid JSON escape character. -/
def escapeInvalidBackslashes : List Char → List Char
  | [] => []
  | c :: rest =>
    if c = bsChar then
      match rest with
      | e :: _ =>
        if e = bsChar || e = '/' || e = dqChar || e = 'b' || e = 'f' ||
            e = 'n' || e = 'r' || e = 't' || e = 'u' then
          bsChar :: escapeInvalidBackslashes rest
        else
          bsChar :: bsChar :: escapeInvalidBackslashes rest
      | [] => [bsChar, bsChar]
    else c :: escapeInvalidBackslashes rest

/-- `safe_json_response` from `src/llm_provider/safe_json_helper.py`:
try `json.loads`; on failure extract the greedy `\{.*\}` substring,
double its invalid backslashes and parse that; re-raise when no brace
substring exists. -/
def safe_json_response (text : String) : Except String Json :=
  match json_loads text with
  | .ok v => .ok v
  | .error e =>
    match extractBraces text.data with
    | some raw => json_loads ⟨escapeInvalidBackslashes raw⟩
    | none => .error e

/-- Whether an `Except` computation succeeded. -/
def exceptIsOk {ε α : Type} : Except ε α → Bool
  | .ok _ => true
  | .error _ => false

/-! ## Data model of verification results

`VerificationVerdict` dictionaries produced by the LLM providers are
consumed by the risk classifier through the keys `is_compliant` and
`matched_rules[i]["rule"]`. -/

/-- One entry of a verdict's `matched_rules` list. -/
structure MatchedRule where
  rule : String
  is_relevant : Bool := true
  reason : String := ""
  deriving Repr, DecidableEq

/-- A verification verdict as consumed by the risk classifier. -/
structure VerifierResult where
  is_compliant : Bool
  matched_rules : List MatchedRule
  final_reason : String := ""
  deriving Repr, DecidableEq

/-! ## Risk classifier (src/compliance_checker/risk_explainer_agent.py)

`RISK_KEYWORDS` transcribed verbatim, in dictionary insertion order:
categories Legal, Financial, Operational; severities low, medium, high. -/

def legalLowKeywords : List String := [
  "data retention", "email consent", "basic disclosure", "cookie banner",
  "age verification", "opt-in form", "advertising guidelines", "copyright notice",
  "privacy notice", "employee conduct", "whistleblower", "training requirement",
  "website policy", "privacy shield", "standard contractual clause",
  "basic nda", "intellectual property marking", "brand usage",
  "simple contract clause", "minor compliance update"]

def legalMediumKeywords : List String := [
  "HIPAA", "SOX", "PCI DSS", "consumer protection", "cross-border data transfer",
  "sensitive personal data", "data subject rights", "informed consent",
  "retention limits", "audit obligation", "non-compete", "breach of contract",
  "export control", "AML (anti money laundering)", "licensing terms",
  "GDPR DPIA", "standard of care", "industry compliance", "governance policy",
  "harassment law"]

def legalHighKeywords : List String := [
  "GDPR", "CCPA", "antitrust", "competition law", "bribery", "corruption",
  "criminal liability", "environmental violation", "trade secrets theft",
  "fraud", "FCPA", "money laundering", "sanctions violation", "terrorism financing",
  "child protection law", "discrimination", "illegal surveillance",
  "human rights violation", "genocide", "war crimes", "insider trading"]

def financialLowKeywords : List String := [
  "late payment", "small fines", "bank reconciliation", "reporting error",
  "clerical error", "budget overrun", "low-value transaction",
  "delayed invoice", "currency rounding", "operational fee",
  " petty cash", "minor audit finding", "tax filing delay",
  "mislabelled expense", "duplicate entry", "simple variance",
  "low materiality", "accounting correction", "vendor misreport",
  "invoice mismatch", "expense approval"]

def financialMediumKeywords : List String := [
  "tax evasion suspicion", "AML alert", "financial reporting",
  "capital adequacy", "unsecured loan", "medium-value fraud",
  "internal audit fail", "SOX non-compliance", "credit rating impact",
  "hedging loss", "currency risk", "insurance lapse", "payment system breach",
  "misrepresentation", "loan covenant breach", "fraudulent invoice",
  "deferred revenue issue", "derivatives misstatement", "suspicious transfer",
  "foreign exchange loss"]

def financialHighKeywords : List String := [
  "money laundering", "securities fraud", "embezzlement", "bankruptcy",
  "Ponzi scheme", "financial crime", "tax fraud", "insider trading",
  "terrorist financing", "capital market manipulation", "bribery fund",
  "illegal investment scheme", "sanctions breach", "shadow banking",
  "large-scale fraud", "regulatory fine", "stock manipulation",
  "false accounting", "loan sharking", "crypto scam", "bond default"]

def operationalLowKeywords : List String := [
  "delayed delivery", "staff absence", "machine downtime",
  "workplace safety note", "minor IT outage", "low-value procurement",
  "non-critical defect", "small process gap", "customer complaint",
  "service delay", "shift absence", "supply hiccup", "reporting lag",
  "maintenance miss", "lost document", "email misrouting",
  "meeting delay", "training lapse", "manual error", "low priority backlog"]

def operationalMediumKeywords : List String := [
  "data breach", "service outage", "operational fraud",
  "cybersecurity gap", "vendor failure", "compliance gap",
  "medium downtime", "untrained staff", "supply chain risk",
  "system vulnerability", "policy violation", "unauthorized access",
  "payment delay", "fraud detection miss", "incomplete audit trail",
  "incorrect reporting", "KYC failure", "license lapse",
  "safety breach", "medium-scale disruption"]

def operationalHighKeywords : List String := [
  "ransomware", "system hack", "major data breach",
  "identity theft", "critical infrastructure failure",
  "regulatory shutdown", "large-scale fraud",
  "supply chain collapse", "factory shutdown", "nation-state attack",
  "major service outage", "cyber espionage", "espionage",
  "unauthorized disclosure", "operational sabotage",
  "environmental spill", "toxic release", "industrial accident",
  "explosion", "mass casualty"]

/-- The `RISK_KEYWORDS` table: category name paired with its severity
levels, each level carrying its keyword list and base score, all in the
Python dictionary insertion order. -/
def RISK_KEYWORDS : List (String × List (String × List String × Int)) := [
  ("Legal", [("low", legalLowKeywords, 3),
             ("medium", legalMediumKeywords, 6),
             ("high", legalHighKeywords, 9)]),
  ("Financial", [("low", financialLowKeywords, 2),
                 ("medium", financialMediumKeywords, 6),
                 ("high", financialHighKeywords, 10)]),
  ("Operational", [("low", operationalLowKeywords, 2),
                   ("medium", operationalMediumKeywords, 5),
                   ("high", operationalHighKeywords, 9)])]

/-- A risk explanation dictionary. -/
structure RiskExplanation where
  severity : String
  category : String
  risk_score : Int
  impact : String
  mitigation : String
  deriving Repr, DecidableEq

/-- The explanation returned for a compliant verdict. -/
def noRiskExplanation : RiskExplanation :=
  { severity := "None"
    category := "None"
    risk_score := 0
    impact := "No regulatory exposure."
    mitigation := "No action required." }

/-- The explanation built when severity `sev` of category `cat` with
base score `score` is the first match. -/
def classifiedExplanation (cat sev : String) (score : Int) : RiskExplanation :=
  { severity := pyCapitalize sev
    category := cat
    risk_score := score
    impact := cat ++ " risk (" ++ sev ++ ") detected."
    mitigation := "Review and address compliance gap immediately." }

/-- `" ".join(r["rule"] for r in matched_rules)`. -/
def joinedRuleText (rules : List MatchedRule) : String :=
  String.intercalate " " (rules.map (·.rule))

/-- Inner loop of `explain_risk`: scan the severity levels of one
category in order. -/
def scanLevels (cat : String) (matched_text : String) :
    List (String × List String × Int) → Option RiskExplanation
  | [] => none
  | (sev, kws, score) :: rest =>
    if kws.any (fun kw => kwInText kw matched_text) then
      some (classifiedExplanation cat sev score)
    else scanLevels cat matched_text rest

/-- Outer loop of `explain_risk`: scan the categories in order. -/
def scanCategories (matched_text : String) :
    List (String × List (String × List String × Int)) → Option RiskExplanation
  | [] => none
  | (cat, levels) :: rest =>
    match scanLevels cat matched_text levels with
    | some e => some e
    | none => scanCategories matched_text rest

/-- `RiskExplainer.explain_risk`: a compliant verdict maps to the fixed
no-risk explanation; otherwise the joined matched-rule text is scanned
against `RISK_KEYWORDS` and the first matching (category, severity)
entry wins, `none` when nothing matches. -/
def explain_risk (v : VerifierResult) : Option RiskExplanation :=
  if v.is_compliant then some noRiskExplanation
  else scanCategories (joinedRuleText v.matched_rules) RISK_KEYWORDS

/-- `RiskExplainer.explain_all`. -/
def explain_all (vs : List VerifierResult) : List (Option RiskExplanation) :=
  vs.map explain_risk

/-! ## Regulation retriever (src/compliance_checker/regulation_retriever.py)

The external collaborators (the Elasticsearch backend and the embedding
model) appear as an explicit environment: `esAvailable` is the outcome
of `_get_es_index` (which catches every failure and returns a boolean),
`encode` the embedding model, and `search` one hybrid query, returning
either ranked hits or the message of the exception it raised. -/

/-- An embedding vector (its numeric content is irrelevant here). -/
abbrev Emb := List Int

/-- One Elasticsearch hit, already projected to its used fields. -/
structure Hit where
  text : String
  doc_id : String
  clause_id : String
  chunk_id : String
  score : Int
  deriving Repr, DecidableEq

/-- The external environment of the engine: search backend, embedding
model, and the four LLM provider verification endpoints. -/
structure Env where
  esAvailable : Bool
  encode : String → Emb
  search : String → Emb → Nat → Except String (List Hit)
  openaiVerify : String → String → VerifierResult
  geminiVerify : String → String → VerifierResult
  mistralVerify : String → String → VerifierResult
  claudeVerify : String → String → VerifierResult

/-- An input clause dictionary; the retriever reads its `text_en` key. -/
structure Clause where
  text_en : String
  deriving Repr, DecidableEq

/-- A per-rule match dictionary, kept as an association list in insertion
order because `LLMVerifier.examine_clause` tuple-unpacks it (Python
iterates a dict by its keys). -/
abbrev MatchDict := List (String × Json)

/-- The match dictionary built from one Elasticsearch hit. -/
def hitToMatch (h : Hit) : MatchDict :=
  [("rule_text", .str h.text),
   ("metadata", .obj [("doc_id", .str h.doc_id), ("clause_id", .str h.clause_id),
                      ("chunk_id", .str h.chunk_id), ("score", .num h.score)])]

/-- The synthetic match dictionary built in degraded mode; `msg` is the
text appended after the `"Retrieval error: "` marker. -/
def degradedMatch (msg : String) : MatchDict :=
  [("rule_text", .str ("Retrieval error: " ++ msg)), ("metadata", .obj [])]

/-- One retrieval result: the original clause with its ranked matches. -/
structure RetrievalResult where
  original_clause : Clause
  «matches» : List MatchDict
  deriving Repr

/-- The per-clause search loop of `retrieve_similar_rules`; the Python
`try` wraps the whole loop, so the first raised exception aborts it. -/
def searchLoop (env : Env) (top_k : Nat) :
    List (Clause × Emb) → Except String (List RetrievalResult)
  | [] => .ok []
  | (c, v) :: rest =>
    match env.search c.text_en v top_k with
    | .error e => .error e
    | .ok hits =>
      match searchLoop env top_k rest with
      | .error e => .error e
      | .ok rs => .ok ({ original_clause := c, «matches» := hits.map hitToMatch } :: rs)

/-- `RegulationRetriever.retrieve_similar_rules`: degraded placeholder
per clause when the backend is unavailable, one hybrid query per clause
otherwise, and a degraded placeholder per clause again when any query
raises. -/
def retrieve_similar_rules (env : Env) (clauses : List Clause) (top_k : Nat := 5) :
    List RetrievalResult :=
  if !env.esAvailable then
    clauses.map (fun c =>
      { original_clause := c,
        «matches» := [degradedMatch "Could not connect to Elasticsearch"] })
  else
    let query_texts := clauses.map (·.text_en)
    let query_embeddings := query_texts.map env.encode
    match searchLoop env top_k (clauses.zip query_embeddings) with
    | .ok results => results
    | .error e =>
      clauses.map (fun c => { original_clause := c, «matches» := [degradedMatch e] })

/-! ## LLM verifier (src/compliance_checker/llm_verifier.py) -/

/-- The system prompt of `examine_clause`, transcribed with its Python
triple-quote indentation. -/
def system_prompt : String :=
  "You are a compliance verification assistant.\n        Compare the given clause against multiple candidate regulatory rules.\n        You must:\n        - Analyze each candidate rule carefully\n        - Decide which (if any) rules actually apply\n        - State whether the clause is compliant\n        - Explain reasoning clearly\n\n        Return JSON in format:\n        \x7b\n          \"clause\": \"...\",\n          \"is_compliant\": true/false,\n          \"matched_rules\": [\n              \x7b\n                \"rule\": \"...\", #Can be from your knowledge base\n                \"metadata\": \x7b...\x7d,\n                \"is_relevant\": true/false,\n                \"reason\": \"...\"\n              \x7d\n          ],\n          \"final_reason\": \"Summary reasoning whether compliant or not\",\n          \"Section\": \"Wealth/Banking/Insurance/Compliance\"\n        \x7d\n        "

/-- Python tuple-unpacking of a dictionary, as in
`for rule, metadata in clause_obj["matches"]`: iterating a dict yields
its **keys**, and unpacking requires exactly two of them. -/
def dictUnpack2 (d : MatchDict) : Except String (String × String) :=
  match d with
  | [(k1, _), (k2, _)] => .ok (k1, k2)
  | _ => .error "ValueError: dict unpacking needs exactly two keys"

/-- The `candidate_rules` list comprehension of `examine_clause`. -/
def unpackMatches : List MatchDict → Except String (List (String × String))
  | [] => .ok []
  | d :: rest =>
    match dictUnpack2 d with
    | .error e => .error e
    | .ok p =>
      match unpackMatches rest with
      | .error e => .error e
      | .ok ps => .ok (p :: ps)

/-- Python `repr` of a clause dictionary, as interpolated by the
f-string `f"{clause_obj['original_clause']}"`. -/
def pyReprClause (c : Clause) : String :=
  lbS ++ sqS ++ "text_en" ++ sqS ++ ": " ++ sqS ++ c.text_en ++ sqS ++ rbS

/-- JSON escaping of one character, per Python `json.dumps`. -/
def jsonEscChar (c : Char) : String :=
  if c = dqChar then bsS ++ dqS
  else if c = bsChar then bsS ++ bsS
  else if c = Char.ofNat 10 then bsS ++ "n"
  else if c = Char.ofNat 13 then bsS ++ "r"
  else if c = Char.ofNat 9 then bsS ++ "t"
  else if c = Char.ofNat 8 then bsS ++ "b"
  else if c = Char.ofNat 12 then bsS ++ "f"
  else String.singleton c

/-- Python `json.dumps` of a string. -/
def jsonDumpsStr (s : String) : String :=
  dqS ++ String.join (s.data.map jsonEscChar) ++ dqS

/-- One entry of `json.dumps(candidate_rules, indent=2)`. -/
def candidateItem (p : String × String) : String :=
  "  " ++ lbS ++ "\n    " ++ dqS ++ "rule" ++ dqS ++ ": " ++ jsonDumpsStr p.1 ++
    ",\n    " ++ dqS ++ "metadata" ++ dqS ++ ": " ++ jsonDumpsStr p.2 ++ "\n  " ++ rbS

/-- `json.dumps(candidate_rules, indent=2)` for the shape the code
produces: a list of two-key dictionaries whose values are the two
strings yielded by the dict unpacking. -/
def dumpsCandidates (ps : List (String × String)) : String :=
  match ps with
  | [] => "[]"
  | _ => "[\n" ++ String.intercalate ",\n" (ps.map candidateItem) ++ "\n]"

/-- The user prompt f-string of `examine_clause`. -/
def buildUserPrompt (c : Clause) (pairs : List (String × String)) : String :=
  "\n        Clause:\n        " ++ pyReprClause c ++
  "\n        \n        Candidate Rules:\n        " ++ dumpsCandidates pairs ++
  "\n        \n        Check compliance. For each rule, mark whether it is relevant and why.\n        Then decide overall if the clause is compliant.\n        "

/-- The user prompt `examine_clause` sends, or the error the candidate
rule construction raises. -/
def userPromptOf (cobj : RetrievalResult) : Except String String :=
  match unpackMatches cobj.«matches» with
  | .error e => .error e
  | .ok pairs => .ok (buildUserPrompt cobj.original_clause pairs)

/-- `LLMVerifier.examine_clause`: build the prompts, then dispatch on
the configured provider identifier; an unrecognized identifier raises
`ValueError(f"Unsupported provider: {self.llm_client}")`. -/
def examine_clause (env : Env) (llm_client : String) (cobj : RetrievalResult) :
    Except String VerifierResult :=
  match userPromptOf cobj with
  | .error e => .error e
  | .ok user_prompt =>
    if llm_client = "openai" then .ok (env.openaiVerify system_prompt user_prompt)
    else if llm_client = "gemini" then .ok (env.geminiVerify system_prompt user_prompt)
    else if llm_client = "mistral" then .ok (env.mistralVerify system_prompt user_prompt)
    else if llm_client = "claude" then .ok (env.claudeVerify system_prompt user_prompt)
    else .error ("Unsupported provider: " ++ llm_client)

/-- `LLMVerifier.verify_clauses`: one `examine_clause` per clause object,
in order; an exception aborts the loop. -/
def verify_clauses (env : Env) (llm_client : String) :
    List RetrievalResult → Except String (List VerifierResult)
  | [] => .ok []
  | cobj :: rest =>
    match examine_clause env llm_client cobj with
    | .error e => .error e
    | .ok r =>
      match verify_clauses env llm_client rest with
      | .error e => .error e
      | .ok rs => .ok (r :: rs)

/-! ## Compliance orchestrator (src/compliance_checker/compliance_agent.py) -/

/-- The stored state of an `LLMVerifier` instance. -/
structure LLMVerifier where
  llm_client : String
  deriving Repr, DecidableEq

/-- `LLMVerifier.__init__`: stores the identifier, validating nothing. -/
def LLMVerifier.init (llm_client : String := "gemini") : LLMVerifier :=
  { llm_client := llm_client }

/-- The stored state of a `ComplianceAgent` instance. -/
structure ComplianceAgent where
  faiss_index_path : String
  metadata_path : String
  llm_verifier : LLMVerifier
  deriving Repr, DecidableEq

/-- `ComplianceAgent.__init__`: builds the retriever with its fixed
paths and the verifier with the given identifier; total, so construction
never raises, whatever the identifier. -/
def ComplianceAgent.init (llm_client : String := "gemini") : ComplianceAgent :=
  { faiss_index_path := "faiss_index.bin"
    metadata_path := "metadata.pkl"
    llm_verifier := LLMVerifier.init llm_client }

/-- The dictionary `ensure_compliance` returns. -/
structure ComplianceOutput where
  verification_results : List VerifierResult
  risk_explanations : List (Option RiskExplanation)
  deriving Repr

/-- `ComplianceAgent.ensure_compliance`: retrieve the relevant rules,
verify each clause against them, explain each verdict. -/
def ensure_compliance (env : Env) (agent : ComplianceAgent) (clauses : List Clause) :
    Except String ComplianceOutput :=
  match verify_clauses env agent.llm_verifier.llm_client
      (retrieve_similar_rules env clauses) with
  | .error e => .error e
  | .ok verification_results =>
    .ok { verification_results := verification_results
          risk_explanations := explain_all verification_results }

/-! ## Conversational wrapper (src/compliance_checker/conversational_agent.py)

Only the session bookkeeping is deterministic: response generation goes
through the retriever and the LLM, so the two messages appended by one
`chat` turn (the user message and the generated assistant message,
each carrying a wall-clock timestamp) enter the model as parameters. -/

/-- One entry of a session's `messages` list. -/
structure ChatMessage where
  role : String
  content : String
  timestamp : String
  intent : Option String := none
  deriving Repr, DecidableEq

/-- `_analyze_intent`: first matching keyword group wins. -/
def analyze_intent (message : String) : String :=
  let m := pyLower message
  if ["compliant", "comply", "violation", "violate"].any (fun w => strContains m w) then
    "compliance_check"
  else if ["regulation", "rule", "sebi", "provision"].any (fun w => strContains m w) then
    "regulation_lookup"
  else if ["risk", "danger", "consequence", "penalty"].any (fun w => strContains m w) then
    "risk_assessment"
  else if ["what", "why", "how", "explain", "clarify"].any (fun w => strContains m w) then
    "clarification"
  else "general_question"

/-- The trim at the end of `chat`:
`if len(messages) > max_history * 2: messages = messages[-max_history * 2:]`. -/
def trimHistory (max_history : Nat) (msgs : List ChatMessage) : List ChatMessage :=
  if msgs.length > max_history * 2 then msgs.drop (msgs.length - max_history * 2)
  else msgs

/-- The effect of one `chat` call on a session's message list: append
the user message, append the generated assistant message, trim. -/
def chatStep (max_history : Nat) (msgs : List ChatMessage)
    (userMsg assistantMsg : ChatMessage) : List ChatMessage :=
  trimHistory max_history (msgs ++ [userMsg, assistantMsg])

/-- The message list of a fresh session after a sequence of `chat`
turns, each turn contributing its user and assistant message. -/
def runChat (max_history : Nat) (turns : List (ChatMessage × ChatMessage)) :
    List ChatMessage :=
  turns.foldl (fun msgs p => chatStep max_history msgs p.1 p.2) []

/-- A conversation record of the session table. -/
structure SessionRec where
  messages : List ChatMessage
  context : List (String × String)
  started_at : String
  deriving Repr, DecidableEq

/-- Python dictionary assignment `table[k] = v` on an insertion-ordered
association list. -/
def setKey {α : Type} : List (String × α) → String → α → List (String × α)
  | [], k, v => [(k, v)]
  | (k2, v2) :: rest, k, v =>
    if k2 = k then (k, v) :: rest else (k2, v2) :: setKey rest k v

/-- `ConversationalComplianceAgent.start_session`: store a fresh record
under the given id (or under a generated timestamp id when none is
given) and return the id; `now` is `datetime.now().isoformat()` and
`generated_id` the `f"session_{...strftime(...)}"` fallback. -/
def start_session (table : List (String × SessionRec)) (session_id : Option String)
    (now generated_id : String) : List (String × SessionRec) × String :=
  let sid := session_id.getD generated_id
  (setKey table sid { messages := [], context := [], started_at := now }, sid)

/-! ## Shared auxiliary definitions for the verification -/

/-- Whether `pre` is a leading substring of `s`. -/
def strStartsWith (s pre : String) : Bool :=
  pre.data.isPrefixOf s.data

/-- The last `n` elements of a list (Python `l[-n:]` when `n < len(l)`,
the whole list otherwise). -/
def lastN {α : Type} (n : Nat) (l : List α) : List α :=
  l.drop (l.length - n)

/-- The full message sequence a list of chat turns appends: user message
then assistant message, turn by turn. -/
def interleaveTurns (turns : List (ChatMessage × ChatMessage)) : List ChatMessage :=
  turns.foldr (fun p acc => p.1 :: p.2 :: acc) []

/-- A fixed verdict for the stub provider endpoints of the test
environment. -/
def defaultVerdict : VerifierResult :=
  { is_compliant := true, matched_rules := [], final_reason := "ok" }

/-- A concrete environment whose search backend is unreachable and whose
provider endpoints return `defaultVerdict`. -/
def offlineEnv : Env :=
  { esAvailable := false
    encode := fun _ => []
    search := fun _ _ _ => .ok []
    openaiVerify := fun _ _ => defaultVerdict
    geminiVerify := fun _ _ => defaultVerdict
    mistralVerify := fun _ _ => defaultVerdict
    claudeVerify := fun _ _ => defaultVerdict }

/-- Twenty-five identical chat turns, used to exercise the history
trimming bound. -/
def sampleTurns : List (ChatMessage × ChatMessage) :=
  List.replicate 25
    ({ role := "user", content := "is this clause compliant", timestamp := "t0" },
     { role := "assistant", content := "checking", timestamp := "t1",
       intent := some "compliance_check" })

/-! ## Helper lemmas -/

/-- `scanLevels` finds nothing when no keyword of any level matches. -/
theorem scanLevels_eq_none (cat text : String)
    (levels : List (String × List String × Int))
    (h : ∀ level ∈ levels,
      level.2.1.any (fun kw => kwInText kw text) = false) :
    scanLevels cat text levels = none := by
  induction levels with
  | nil => rfl
  | cons hd tl ih =>
    obtain ⟨sev, kws, score⟩ := hd
    have h0 := h (sev, kws, score) (List.mem_cons_self _ _)
    simp only [scanLevels, h0, Bool.false_eq_true, if_false]
    exact ih fun level hm => h level (List.mem_cons_of_mem _ hm)

/-- `scanCategories` finds nothing when no keyword of any category
matches. -/
theorem scanCategories_eq_none (text : String)
    (table : List (String × List (String × List String × Int)))
    (h : ∀ entry ∈ table, ∀ level ∈ entry.2,
      level.2.1.any (fun kw => kwInText kw text) = false) :
    scanCategories text table = none := by
  induction table with
  | nil => rfl
  | cons hd tl ih =>
    obtain ⟨cat, levels⟩ := hd
    have h0 : scanLevels cat text levels = none :=
      scanLevels_eq_none cat text levels
        (fun level hm => h (cat, levels) (List.mem_cons_self _ _) level hm)
    simp only [scanCategories, h0]
    exact ih fun entry hm level hl => h entry (List.mem_cons_of_mem _ hm) level hl

/-! ## Claim theorems -/

/-- C2, counterexample to the claim as stated: for a compliant verdict
the code returns impact `"No regulatory exposure."` (with a trailing
period), which differs from the claimed impact string
`"No regulatory exposure"`. -/
theorem c2_claim_counterexample :
    (explain_risk { is_compliant := true, matched_rules := [] }).map
        RiskExplanation.impact = some "No regulatory exposure." ∧
    ("No regulatory exposure." : String) ≠ "No regulatory exposure" := by
  refine ⟨rfl, ?_⟩
  decide

/-- C2 (amended): for every verdict with `is_compliant` true,
`explain_risk` returns the fixed no-risk explanation with severity
`"None"`, category `"None"`, risk score 0 and impact
`"No regulatory exposure."`; the result does not depend on
`matched_rules`, so no keyword scan occurs. -/
theorem explain_risk_compliant (v : VerifierResult) (h : v.is_compliant = true) :
    explain_risk v = some { severity := "None"
                            category := "None"
                            risk_score := 0
                            impact := "No regulatory exposure."
                            mitigation := "No action required." } := by
  simp only [explain_risk, h, if_true]
  rfl

/-- C2 witness: the amended theorem applied to a concrete compliant
verdict whose matched rules even contain a high-severity keyword. -/
theorem explain_risk_compliant_witness :
    ({ is_compliant := true,
       matched_rules := [{ rule := "money laundering" }] } : VerifierResult).is_compliant
        = true ∧
    explain_risk { is_compliant := true
                   matched_rules := [{ rule := "money laundering" }] }
      = some { severity := "None"
               category := "None"
               risk_score := 0
               impact := "No regulatory exposure."
               mitigation := "No action required." } :=
  ⟨rfl, explain_risk_compliant _ rfl⟩

/-- C3, counterexample to the claim as stated: on a non-compliant
verdict whose matched-rule text is exactly `"money laundering"`,
`explain_risk` returns category Legal with score 9 (the keyword also
appears in the Legal high list and Legal is scanned before Financial),
not the claimed category Financial with score 10. -/
theorem c3_claim_counterexample :
    (explain_risk { is_compliant := false
                    matched_rules := [{ rule := "money laundering" }] }).map
        (fun e => (e.category, e.severity, e.risk_score))
      = some ("Legal", "High", 9) ∧
    (("Legal", "High", (9 : Int))) ≠ ("Financial", "High", 10) := by
  refine ⟨by decide, by decide⟩

/-- C3 (amended): for every non-compliant verdict whose concatenated
matched-rule text contains `"money laundering"` and matches no keyword
of the Legal low or Legal medium lists, `explain_risk` returns category
Legal, severity `"High"`, risk score 9 — because `"money laundering"`
is also a Legal high keyword and the fixed iteration order (Legal →
Financial → Operational, low → medium → high) reaches Legal high before
Financial high, regardless of which other lower-severity keywords of
later categories are present. -/
theorem explain_risk_money_laundering (v : VerifierResult)
    (hnc : v.is_compliant = false)
    (hml : kwInText "money laundering" (joinedRuleText v.matched_rules) = true)
    (hlow : legalLowKeywords.any
      (fun kw => kwInText kw (joinedRuleText v.matched_rules)) = false)
    (hmed : legalMediumKeywords.any
      (fun kw => kwInText kw (joinedRuleText v.matched_rules)) = false) :
    explain_risk v = some { severity := "High"
                            category := "Legal"
                            risk_score := 9
                            impact := "Legal risk (high) detected."
                            mitigation := "Review and address compliance gap immediately." } := by
  have hhigh : legalHighKeywords.any
      (fun kw => kwInText kw (joinedRuleText v.matched_rules)) = true := by
    refine List.any_eq_true.mpr ⟨"money laundering", ?_, hml⟩
    decide
  simp only [explain_risk, hnc, Bool.false_eq_true, if_false, RISK_KEYWORDS,
    scanCategories, scanLevels, hlow, hmed, hhigh, if_true]
  rfl

/-- C3 witness: the amended theorem applied to a concrete non-compliant
verdict whose matched rules contain `"money laundering"` together with a
lower-severity keyword of a later category. -/
theorem explain_risk_money_laundering_witness :
    ({ is_compliant := false,
       matched_rules := [{ rule := "money laundering and late payment" }] }
         : VerifierResult).is_compliant = false ∧
    explain_risk { is_compliant := false
                   matched_rules := [{ rule := "money laundering and late payment" }] }
      = some { severity := "High"
               category := "Legal"
               risk_score := 9
               impact := "Legal risk (high) detected."
               mitigation := "Review and address compliance gap immediately." } :=
  ⟨rfl, explain_risk_money_laundering _ rfl (by decide) (by decide) (by decide)⟩

/-- C7: for every non-compliant verdict whose matched-rule text matches
no keyword of any (category, severity) entry of `RISK_KEYWORDS`,
`explain_risk` returns `none` — a value distinct both from the compliant
no-risk explanation and from every classified explanation — and, being a
total function into `Option`, it does so without raising. -/
theorem explain_risk_unclassified (v : VerifierResult)
    (hnc : v.is_compliant = false)
    (hnone : ∀ entry ∈ RISK_KEYWORDS, ∀ level ∈ entry.2,
      level.2.1.any
        (fun kw => kwInText kw (joinedRuleText v.matched_rules)) = false) :
    explain_risk v = none ∧
    (∀ w : VerifierResult, w.is_compliant = true → explain_risk v ≠ explain_risk w) ∧
    (∀ cat sev : String, ∀ score : Int,
      explain_risk v ≠ some (classifiedExplanation cat sev score)) := by
  have hmain : explain_risk v = none := by
    simp only [explain_risk, hnc, Bool.false_eq_true, if_false]
    exact scanCategories_eq_none _ _ hnone
  refine ⟨hmain, ?_, ?_⟩
  · intro w hw
    rw [hmain, explain_risk, hw, if_pos rfl]
    exact fun hcontra => Option.noConfusion hcontra
  · intro cat sev score
    rw [hmain]
    exact fun hcontra => Option.noConfusion hcontra

/-- C7 witness: the theorem applied to a concrete non-compliant verdict
whose matched-rule text matches no keyword of the table. -/
theorem explain_risk_unclassified_witness :
    ({ is_compliant := false,
       matched_rules := [{ rule := "the weather is sunny today" }] }
         : VerifierResult).is_compliant = false ∧
    explain_risk { is_compliant := false
                   matched_rules := [{ rule := "the weather is sunny today" }] } = none :=
  ⟨rfl, (explain_risk_unclassified _ rfl (by decide)).1⟩

/-! ## Helper lemmas for the JSON repair path -/

/-- Doubling invalid backslashes changes nothing when there is no
backslash at all. -/
theorem escapeInvalidBackslashes_eq_self (l : List Char) (h : bsChar ∉ l) :
    escapeInvalidBackslashes l = l := by
  induction l with
  | nil => rfl
  | cons c rest ih =>
    have hc : ¬(c = bsChar) := fun hcc => h (hcc ▸ List.mem_cons_self _ _)
    simp only [escapeInvalidBackslashes, if_neg hc]
    exact congrArg (c :: ·) (ih fun hm => h (List.mem_cons_of_mem _ hm))

/-- `dropWhile` skips a leading block on which the predicate holds. -/
theorem dropWhile_append_all {α : Type} (p : α → Bool) (a b : List α)
    (h : ∀ x ∈ a, p x = true) : (a ++ b).dropWhile p = b.dropWhile p := by
  induction a with
  | nil => rfl
  | cons c rest ih =>
    have hc := h c (List.mem_cons_self _ _)
    simp only [List.cons_append, List.dropWhile_cons, hc, if_true]
    exact ih fun x hm => h x (List.mem_cons_of_mem _ hm)

/-- `takeToLast` on a list whose tail after the marked closing brace
contains no further closing brace. -/
theorem takeToLast_append (mid g : List Char) (hg : rbChar ∉ g) :
    takeToLast rbChar (mid ++ [rbChar] ++ g) = some (mid ++ [rbChar]) := by
  unfold takeToLast
  have hrev : (mid ++ [rbChar] ++ g).reverse = g.reverse ++ rbChar :: mid.reverse := by
    simp
  rw [hrev]
  have hall : ∀ x ∈ g.reverse, (decide (x ≠ rbChar)) = true := by
    intro x hx
    have hxg : x ∈ g := List.mem_reverse.mp hx
    simp only [decide_eq_true_eq]
    exact fun hxx => hg (hxx ▸ hxg)
  rw [dropWhile_append_all _ _ _ hall]
  simp only [List.dropWhile_cons, decide_eq_true_eq]
  rw [if_neg (by simp)]
  simp

/-- The greedy `\{.*\}` extraction on a brace-delimited block wrapped in
brace-free fences returns exactly the block. -/
theorem extractBraces_append (f mid g : List Char)
    (hf : lbChar ∉ f) (hg : rbChar ∉ g) :
    extractBraces (f ++ (lbChar :: (mid ++ [rbChar])) ++ g)
      = some (lbChar :: (mid ++ [rbChar])) := by
  unfold extractBraces
  have hall : ∀ x ∈ f, (decide (x ≠ lbChar)) = true := by
    intro x hx
    simp only [decide_eq_true_eq]
    exact fun hxx => hf (hxx ▸ hx)
  have h1 : (f ++ (lbChar :: (mid ++ [rbChar])) ++ g).dropWhile (· ≠ lbChar)
      = lbChar :: (mid ++ [rbChar] ++ g) := by
    rw [List.append_assoc]
    rw [dropWhile_append_all _ _ _ hall]
    simp only [List.cons_append, List.dropWhile_cons, decide_eq_true_eq]
    rw [if_neg (by simp)]
  rw [h1]
  simp only []
  rw [takeToLast_append mid g hg]
  rfl

/-- Parsing a text whose first character is a backtick fails. -/
theorem parseValue_backtick (fuel : Nat) (rest : List Char) :
    parseValue (fuel + 1) (btChar :: rest) = .error "Expecting value" := by
  have h0 : isJsonWs btChar = false := by decide
  simp only [parseValue, skipWs, List.dropWhile_cons, h0, Bool.false_eq_true, if_false]
  rw [if_neg (by decide : ¬(btChar = dqChar)),
      if_neg (by decide : ¬(btChar = 't')),
      if_neg (by decide : ¬(btChar = 'f')),
      if_neg (by decide : ¬(btChar = 'n')),
      if_neg (by decide : ¬(btChar = lbChar)),
      if_neg (by decide : ¬(btChar = '['))]
  simp only [parseNumber]
  rw [if_neg (by decide : ¬(btChar = '-'))]
  simp only [show (!btChar.isDigit) = true from by decide, if_true]

/-- `json.loads` fails on any text whose first character is a
backtick. -/
theorem json_loads_backtick (s : String) (rest : List Char)
    (hs : s.data = btChar :: rest) :
    json_loads s = .error "Expecting value" := by
  unfold json_loads
  rw [hs]
  rw [show 2 * s.length + 2 = (2 * s.length + 1) + 1 from rfl]
  rw [parseValue_backtick]

/-- C5, counterexample to the claim as stated: on a fenced JSON object
with a trailing comma before the closing brace, `safe_json_response`
fails (the extracted brace substring still carries the trailing comma,
which `json.loads` rejects), even though the same text without fences
and trailing comma parses fine. -/
theorem c5_claim_counterexample :
    exceptIsOk (safe_json_response
      ("```json\n" ++ lbS ++ dqS ++ "is_compliant" ++ dqS ++ ": true," ++ rbS
        ++ "\n```")) = false ∧
    json_loads (lbS ++ dqS ++ "is_compliant" ++ dqS ++ ": true" ++ rbS)
      = .ok (.obj [("is_compliant", .bool true)]) := by
  exact ⟨rfl, rfl⟩

/-- C5 (amended): for raw LLM output consisting of a JSON object wrapped
in markdown code fences, with no trailing comma (and no backslash in the
object text), `safe_json_response` yields the same parsed object as
parsing the text without the fences: the first `json.loads` fails on the
fence backtick, the greedy brace regex recovers exactly the object
substring, the backslash-escape pass leaves it unchanged, and the retry
parses it. -/
theorem safe_json_response_fenced (o : String) (mid : List Char) (v : Json)
    (hshape : o.data = lbChar :: (mid ++ [rbChar]))
    (hnobs : bsChar ∉ o.data)
    (hparse : json_loads o = .ok v) :
    safe_json_response ("```json\n" ++ o ++ "\n```") = .ok v := by
  have hdata : ("```json\n" ++ o ++ "\n```").data
      = "```json\n".data ++ o.data ++ "\n```".data := by
    rw [String.data_append, String.data_append]
  have hfail : json_loads ("```json\n" ++ o ++ "\n```") = .error "Expecting value" := by
    refine json_loads_backtick _ ("``json\n".data ++ o.data ++ "\n```".data) ?_
    rw [hdata]
    rw [show "```json\n".data = btChar :: "``json\n".data from by decide]
    simp
  have hextract : extractBraces ("```json\n" ++ o ++ "\n```").data
      = some o.data := by
    rw [hdata, hshape]
    exact extractBraces_append _ _ _ (by decide) (by decide)
  have hesc : escapeInvalidBackslashes o.data = o.data :=
    escapeInvalidBackslashes_eq_self _ hnobs
  have hmk : (⟨o.data⟩ : String) = o := by
    cases o
    rfl
  unfold safe_json_response
  rw [hfail]
  simp only []
  rw [hextract]
  simp only []
  rw [hesc, hmk, hparse]

/-- C5 witness: the amended theorem applied to the concrete fenced
object text without a trailing comma. -/
theorem safe_json_response_fenced_witness :
    (lbS ++ dqS ++ "is_compliant" ++ dqS ++ ": true" ++ rbS).data
      = lbChar :: ((dqS ++ "is_compliant" ++ dqS ++ ": true").data ++ [rbChar]) ∧
    bsChar ∉ (lbS ++ dqS ++ "is_compliant" ++ dqS ++ ": true" ++ rbS).data ∧
    json_loads (lbS ++ dqS ++ "is_compliant" ++ dqS ++ ": true" ++ rbS)
      = .ok (.obj [("is_compliant", .bool true)]) ∧
    safe_json_response ("```json\n"
        ++ (lbS ++ dqS ++ "is_compliant" ++ dqS ++ ": true" ++ rbS) ++ "\n```")
      = .ok (.obj [("is_compliant", .bool true)]) :=
  ⟨by decide, by decide, rfl,
    safe_json_response_fenced
      (lbS ++ dqS ++ "is_compliant" ++ dqS ++ ": true" ++ rbS)
      ((dqS ++ "is_compliant" ++ dqS ++ ": true").data)
      (.obj [("is_compliant", .bool true)])
      (by decide) (by decide) rfl⟩

/-! ## Helper lemmas for retrieval and orchestration -/

/-- A list is a `isPrefixOf` of itself followed by anything. -/
theorem isPrefixOf_append_self {α : Type} [BEq α] [LawfulBEq α] (a b : List α) :
    a.isPrefixOf (a ++ b) = true := by
  induction a with
  | nil => simp [List.isPrefixOf]
  | cons x xs ih => simp [List.isPrefixOf, ih]

/-- Every degraded rule text starts with the `"Retrieval error"`
marker. -/
theorem strStartsWith_retrieval_error (msg : String) :
    strStartsWith ("Retrieval error: " ++ msg) "Retrieval error" = true := by
  unfold strStartsWith
  rw [String.data_append]
  rw [show "Retrieval error: ".data = "Retrieval error".data ++ [':', ' '] from by decide]
  rw [List.append_assoc]
  exact isPrefixOf_append_self _ _

/-- The degraded per-clause result list satisfies the degraded-mode
contract: one entry per clause, first match marked as a retrieval
error. -/
theorem degraded_map_spec (clauses : List Clause) (m : String) :
    (clauses.map (fun c =>
      ({ original_clause := c, «matches» := [degradedMatch m] } : RetrievalResult))).length
        = clauses.length ∧
    ∀ r ∈ clauses.map (fun c =>
      ({ original_clause := c, «matches» := [degradedMatch m] } : RetrievalResult)),
        ∃ msg, r.«matches».head? = some (degradedMatch msg) ∧
          ∃ rt, (degradedMatch msg).lookup "rule_text" = some (.str rt) ∧
            strStartsWith rt "Retrieval error" = true := by
  constructor
  · exact List.length_map _ _
  · intro r hr
    obtain ⟨c, _, rfl⟩ := List.mem_map.mp hr
    exact ⟨m, rfl, "Retrieval error: " ++ m, rfl, strStartsWith_retrieval_error m⟩

/-- C4: whenever the search backend is unreachable (`_get_es_index`
returned false) or the per-clause search loop raised,
`retrieve_similar_rules` — a total function, so it never raises —
returns exactly one result entry per input clause, and each entry's
first match carries a `rule_text` starting with `"Retrieval error"`. -/
theorem retrieve_similar_rules_degraded (env : Env) (clauses : List Clause) (top_k : Nat)
    (h : env.esAvailable = false ∨
      ∃ msg, searchLoop env top_k
        (clauses.zip ((clauses.map (fun c => c.text_en)).map env.encode)) = .error msg) :
    (retrieve_similar_rules env clauses top_k).length = clauses.length ∧
    ∀ r ∈ retrieve_similar_rules env clauses top_k,
      ∃ msg, r.«matches».head? = some (degradedMatch msg) ∧
        ∃ rt, (degradedMatch msg).lookup "rule_text" = some (.str rt) ∧
          strStartsWith rt "Retrieval error" = true := by
  rcases h with hfalse | ⟨msg, herr⟩
  · have hres : retrieve_similar_rules env clauses top_k
        = clauses.map (fun c =>
          ({ original_clause := c,
             «matches» := [degradedMatch "Could not connect to Elasticsearch"] }
            : RetrievalResult)) := by
      simp [retrieve_similar_rules, hfalse]
    rw [hres]
    exact degraded_map_spec clauses _
  · by_cases hes : env.esAvailable = true
    · have hres : retrieve_similar_rules env clauses top_k
          = clauses.map (fun c =>
            ({ original_clause := c, «matches» := [degradedMatch msg] }
              : RetrievalResult)) := by
        simp only [retrieve_similar_rules, hes, Bool.not_true, Bool.false_eq_true,
          if_false]
        rw [herr]
      rw [hres]
      exact degraded_map_spec clauses _
    · have hfalse : env.esAvailable = false := by
        cases henv : env.esAvailable
        · rfl
        · exact absurd henv hes
      have hres : retrieve_similar_rules env clauses top_k
          = clauses.map (fun c =>
            ({ original_clause := c,
               «matches» := [degradedMatch "Could not connect to Elasticsearch"] }
              : RetrievalResult)) := by
        simp [retrieve_similar_rules, hfalse]
      rw [hres]
      exact degraded_map_spec clauses _

/-- C4 witness: the theorem applied to a concrete unreachable
environment and two concrete clauses. -/
theorem retrieve_similar_rules_degraded_witness :
    offlineEnv.esAvailable = false ∧
    (retrieve_similar_rules offlineEnv
      [{ text_en := "clause A" }, { text_en := "clause B" }] 5).length
        = ([{ text_en := "clause A" }, { text_en := "clause B" }] : List Clause).length ∧
    ∀ r ∈ retrieve_similar_rules offlineEnv
        [{ text_en := "clause A" }, { text_en := "clause B" }] 5,
      ∃ msg, r.«matches».head? = some (degradedMatch msg) ∧
        ∃ rt, (degradedMatch msg).lookup "rule_text" = some (.str rt) ∧
          strStartsWith rt "Retrieval error" = true :=
  ⟨rfl,
    (retrieve_similar_rules_degraded offlineEnv
      [{ text_en := "clause A" }, { text_en := "clause B" }] 5 (Or.inl rfl)).1,
    (retrieve_similar_rules_degraded offlineEnv
      [{ text_en := "clause A" }, { text_en := "clause B" }] 5 (Or.inl rfl)).2⟩

/-- A successful search loop returns one result per (clause, embedding)
pair, preserving each original clause positionally. -/
theorem searchLoop_ok_spec (env : Env) (top_k : Nat) :
    ∀ (pairs : List (Clause × Emb)) (rs : List RetrievalResult),
      searchLoop env top_k pairs = .ok rs →
      rs.map (fun r => r.original_clause) = pairs.map Prod.fst := by
  intro pairs
  induction pairs with
  | nil =>
    intro rs h
    simp only [searchLoop] at h
    cases h
    rfl
  | cons hd tl ih =>
    intro rs h
    obtain ⟨c, v⟩ := hd
    simp only [searchLoop] at h
    cases hsearch : env.search c.text_en v top_k with
    | error e => rw [hsearch] at h; cases h
    | ok hits =>
      rw [hsearch] at h
      cases hrest : searchLoop env top_k tl with
      | error e => rw [hrest] at h; cases h
      | ok rs2 =>
        rw [hrest] at h
        cases h
        simpa using ih rs2 hrest

/-- `retrieve_similar_rules` preserves the input clause list
positionally: mapping each result to its original clause gives back the
input, in every mode. -/
theorem retrieve_map_original (env : Env) (clauses : List Clause) (top_k : Nat) :
    (retrieve_similar_rules env clauses top_k).map (fun r => r.original_clause)
      = clauses := by
  by_cases hes : env.esAvailable = true
  · simp only [retrieve_similar_rules, hes, Bool.not_true, Bool.false_eq_true, if_false]
    cases hs : searchLoop env top_k
        (clauses.zip ((clauses.map (fun c => c.text_en)).map env.encode)) with
    | error e =>
      have hcomp : ((fun r : RetrievalResult => r.original_clause) ∘ fun c =>
          ({ original_clause := c, «matches» := [degradedMatch e] } : RetrievalResult))
          = fun c : Clause => c := rfl
      simp [hcomp]
    | ok rs =>
      rw [searchLoop_ok_spec env top_k _ rs hs]
      refine List.map_fst_zip _ _ ?_
      simp
  · have hfalse : env.esAvailable = false := by
      cases henv : env.esAvailable
      · rfl
      · exact absurd henv hes
    have hcomp : ((fun r : RetrievalResult => r.original_clause) ∘ fun c =>
        ({ original_clause := c,
           «matches» := [degradedMatch "Could not connect to Elasticsearch"] }
          : RetrievalResult))
        = fun c : Clause => c := rfl
    simp [retrieve_similar_rules, hfalse, hcomp]

/-- A successful `verify_clauses` returns exactly one verdict per
clause object. -/
theorem verify_clauses_ok_length (env : Env) (client : String) :
    ∀ (l : List RetrievalResult) (out : List VerifierResult),
      verify_clauses env client l = .ok out → out.length = l.length := by
  intro l
  induction l with
  | nil =>
    intro out h
    simp only [verify_clauses] at h
    cases h
    rfl
  | cons hd tl ih =>
    intro out h
    simp only [verify_clauses] at h
    cases hex : examine_clause env client hd with
    | error e => rw [hex] at h; cases h
    | ok r =>
      rw [hex] at h
      cases hrest : verify_clauses env client tl with
      | error e => rw [hrest] at h; cases h
      | ok rs =>
        rw [hrest] at h
        cases h
        simpa using ih rs hrest

/-- C1: whenever `ensure_compliance` returns, its `verification_results`
and `risk_explanations` both have exactly the length of the input clause
list and are positionally aligned with it: the retrieval entries map
back to the input clauses in order, the verdicts are the verifier's
output on exactly that retrieval list, and each risk explanation is
`explain_risk` of the verdict at the same index — nothing is reordered,
dropped or coalesced, and a clause with no retrievable rules still
occupies its verdict and risk slot. -/
theorem ensure_compliance_aligned (env : Env) (agent : ComplianceAgent)
    (clauses : List Clause) (out : ComplianceOutput)
    (h : ensure_compliance env agent clauses = .ok out) :
    out.verification_results.length = clauses.length ∧
    out.risk_explanations.length = clauses.length ∧
    out.risk_explanations = out.verification_results.map explain_risk ∧
    (retrieve_similar_rules env clauses).map (fun r => r.original_clause) = clauses ∧
    verify_clauses env agent.llm_verifier.llm_client (retrieve_similar_rules env clauses)
      = .ok out.verification_results := by
  have hretlen : (retrieve_similar_rules env clauses).length = clauses.length := by
    have := congrArg List.length (retrieve_map_original env clauses 5)
    simpa using this
  unfold ensure_compliance at h
  cases hv : verify_clauses env agent.llm_verifier.llm_client
      (retrieve_similar_rules env clauses) with
  | error e => rw [hv] at h; cases h
  | ok vr =>
    rw [hv] at h
    cases h
    have hlen : vr.length = clauses.length := by
      rw [verify_clauses_ok_length env agent.llm_verifier.llm_client _ vr hv]
      exact hretlen
    refine ⟨hlen, ?_, rfl, retrieve_map_original env clauses 5, rfl⟩
    simpa [explain_all] using hlen

/-- C1 witness: the theorem applied to a concrete run over two clauses
in degraded retrieval mode (no retrievable rules), where both clauses
still receive a verdict and a risk slot. -/
theorem ensure_compliance_aligned_witness :
    ensure_compliance offlineEnv (ComplianceAgent.init "gemini")
        [{ text_en := "clause A" }, { text_en := "clause B" }]
      = .ok { verification_results := [defaultVerdict, defaultVerdict]
              risk_explanations := [some noRiskExplanation, some noRiskExplanation] } ∧
    ([defaultVerdict, defaultVerdict].length
      = ([{ text_en := "clause A" }, { text_en := "clause B" }] : List Clause).length) ∧
    ([some noRiskExplanation, some noRiskExplanation].length
      = ([{ text_en := "clause A" }, { text_en := "clause B" }] : List Clause).length) :=
  ⟨rfl,
    (ensure_compliance_aligned offlineEnv (ComplianceAgent.init "gemini")
      [{ text_en := "clause A" }, { text_en := "clause B" }]
      { verification_results := [defaultVerdict, defaultVerdict]
        risk_explanations := [some noRiskExplanation, some noRiskExplanation] } rfl).1,
    (ensure_compliance_aligned offlineEnv (ComplianceAgent.init "gemini")
      [{ text_en := "clause A" }, { text_en := "clause B" }]
      { verification_results := [defaultVerdict, defaultVerdict]
        risk_explanations := [some noRiskExplanation, some noRiskExplanation] } rfl).2.1⟩

set_option maxRecDepth 4096 in
/-- C6: evidence of the code bug in `examine_clause`. The loop
`for rule, metadata in clause_obj["matches"]` tuple-unpacks each match
dictionary, which yields its two *keys* — the constant strings
`"rule_text"` and `"metadata"` — so the user prompt serializes those key
names instead of the retrieved rule content: on a concrete clause
object, the built prompt does not contain the actual rule text, while it
does contain the literal pair `"rule": "rule_text"` (and the clause text
via the interpolated clause dict). -/
theorem examine_clause_prompt_bug :
    (userPromptOf { original_clause := { text_en := "Data sharing clause" }
                    «matches» := [[("rule_text", Json.str "Actual SEBI rule content"),
                                   ("metadata", Json.obj [])]] }).map
        (fun p => (strContains p "Actual SEBI rule content",
                   strContains p (dqS ++ "rule" ++ dqS ++ ": " ++ dqS ++ "rule_text" ++ dqS),
                   strContains p "Data sharing clause"))
      = .ok (false, true, true) := by
  rfl

/-- C8, counterexample to the claim as stated: constructing the
orchestrator with the unrecognized provider identifier `"bogus"`
succeeds (the identifier is stored unvalidated), and the
unsupported-provider error is raised only by the per-clause
`examine_clause` call. -/
theorem c8_claim_counterexample :
    (ComplianceAgent.init "bogus").llm_verifier.llm_client = "bogus" ∧
    examine_clause offlineEnv "bogus"
        { original_clause := { text_en := "c" }, «matches» := [] }
      = .error "Unsupported provider: bogus" :=
  ⟨rfl, rfl⟩

/-- C8 (amended): for every provider identifier outside the recognized
set, orchestrator construction still succeeds — `ComplianceAgent`
construction is total and stores the identifier unvalidated — and the
unsupported-provider `ValueError` is raised on each per-clause
verification call (`examine_clause`), after the prompts are built. -/
theorem unsupported_provider_raised_per_call (env : Env) (client : String)
    (cobj : RetrievalResult) (pairs : List (String × String))
    (hclient : client ∉ (["openai", "gemini", "mistral", "claude"] : List String))
    (hok : unpackMatches cobj.«matches» = .ok pairs) :
    (ComplianceAgent.init client).llm_verifier.llm_client = client ∧
    examine_clause env client cobj = .error ("Unsupported provider: " ++ client) := by
  refine ⟨rfl, ?_⟩
  have h1 : ¬(client = "openai") := fun hc => hclient (by rw [hc]; simp)
  have h2 : ¬(client = "gemini") := fun hc => hclient (by rw [hc]; simp)
  have h3 : ¬(client = "mistral") := fun hc => hclient (by rw [hc]; simp)
  have h4 : ¬(client = "claude") := fun hc => hclient (by rw [hc]; simp)
  unfold examine_clause userPromptOf
  rw [hok]
  simp only []
  rw [if_neg h1, if_neg h2, if_neg h3, if_neg h4]

/-- C8 witness: the amended theorem applied to the identifier `"bogus"`
and a concrete clause object with an unpackable match dictionary. -/
theorem unsupported_provider_raised_per_call_witness :
    ("bogus" : String) ∉ (["openai", "gemini", "mistral", "claude"] : List String) ∧
    unpackMatches ({ original_clause := { text_en := "c" }
                     «matches» := [degradedMatch "down"] } : RetrievalResult).«matches»
      = .ok [("rule_text", "metadata")] ∧
    examine_clause offlineEnv "bogus"
        { original_clause := { text_en := "c" }, «matches» := [degradedMatch "down"] }
      = .error ("Unsupported provider: " ++ "bogus") :=
  ⟨by decide, rfl,
    (unsupported_provider_raised_per_call offlineEnv "bogus"
      { original_clause := { text_en := "c" }, «matches» := [degradedMatch "down"] }
      [("rule_text", "metadata")] (by decide) rfl).2⟩

/-! ## Helper lemmas for the conversational history -/

/-- One chat turn leaves exactly the last `max_history * 2` messages of
the appended history. -/
theorem chatStep_eq_lastN (mh : Nat) (msgs : List ChatMessage) (u a : ChatMessage) :
    chatStep mh msgs u a = lastN (mh * 2) (msgs ++ [u, a]) := by
  unfold chatStep trimHistory lastN
  by_cases hlen : (msgs ++ [u, a]).length > mh * 2
  · rw [if_pos hlen]
  · rw [if_neg hlen]
    have h0 : (msgs ++ [u, a]).length - mh * 2 = 0 :=
      Nat.sub_eq_zero_of_le (Nat.le_of_not_lt hlen)
    rw [h0, List.drop_zero]

/-- The length of `lastN`. -/
theorem lastN_length {α : Type} (n : Nat) (l : List α) :
    (lastN n l).length = l.length - (l.length - n) := by
  unfold lastN
  rw [List.length_drop]

/-- `lastN` keeps at most `n` elements. -/
theorem lastN_le {α : Type} (n : Nat) (l : List α) : (lastN n l).length ≤ n := by
  rw [lastN_length]
  omega

/-- Taking the last `n` elements twice across an append collapses. -/
theorem lastN_append_lastN {α : Type} (n : Nat) (xs ys : List α) :
    lastN n (lastN n xs ++ ys) = lastN n (xs ++ ys) := by
  unfold lastN
  by_cases h : xs.length ≤ n
  · have h0 : xs.length - n = 0 := Nat.sub_eq_zero_of_le h
    rw [h0, List.drop_zero]
  · have hn : n < xs.length := Nat.lt_of_not_le h
    have hk : xs.length - n ≤ xs.length := Nat.sub_le _ _
    rw [List.length_append, List.length_drop, List.length_append]
    have h1 : xs.length - (xs.length - n) = n := Nat.sub_sub_self (Nat.le_of_lt hn)
    rw [h1]
    have h2 : n + ys.length - n = ys.length := by omega
    rw [h2]
    have h3 : xs.length + ys.length - n = (xs.length - n) + ys.length := by omega
    rw [h3]
    rw [← List.drop_drop, List.drop_append_of_le_length hk]

/-- The interleaved message sequence of `t` turns has `2 * t`
messages. -/
theorem interleaveTurns_length (turns : List (ChatMessage × ChatMessage)) :
    (interleaveTurns turns).length = 2 * turns.length := by
  induction turns with
  | nil => rfl
  | cons hd tl ih =>
    simp only [interleaveTurns, List.foldr_cons, List.length_cons] at ih ⊢
    omega

/-- Running chat turns from any bounded history keeps exactly the last
`max_history * 2 = 20` messages of everything appended so far. -/
theorem runChat_from (turns : List (ChatMessage × ChatMessage)) :
    ∀ msgs : List ChatMessage, msgs.length ≤ 20 →
      List.foldl (fun m p => chatStep 10 m p.1 p.2) msgs turns
        = lastN 20 (msgs ++ interleaveTurns turns) := by
  induction turns with
  | nil =>
    intro msgs hle
    simp only [List.foldl_nil, interleaveTurns, List.foldr_nil, List.append_nil]
    unfold lastN
    have h0 : msgs.length - 20 = 0 := Nat.sub_eq_zero_of_le hle
    rw [h0, List.drop_zero]
  | cons hd tl ih =>
    intro msgs hle
    obtain ⟨u, a⟩ := hd
    simp only [List.foldl_cons]
    have hstep : chatStep 10 msgs u a = lastN 20 (msgs ++ [u, a]) :=
      chatStep_eq_lastN 10 msgs u a
    rw [hstep, ih _ (lastN_le 20 (msgs ++ [u, a])), lastN_append_lastN]
    have hseq : (msgs ++ [u, a]) ++ interleaveTurns tl
        = msgs ++ interleaveTurns ((u, a) :: tl) := by
      simp [interleaveTurns]
    rw [hseq]

/-- C9: after every sequence of chat turns on a fresh session the stored
message list is exactly the last `max_history * 2 = 20` messages of
everything appended, hence never holds more than 20 messages; after 25
turns it holds exactly the 20 most recent. -/
theorem chat_history_bounded (turns : List (ChatMessage × ChatMessage)) :
    (runChat 10 turns).length ≤ 20 ∧
    runChat 10 turns = lastN 20 (interleaveTurns turns) ∧
    (turns.length = 25 → (runChat 10 turns).length = 20) := by
  have hmain : runChat 10 turns = lastN 20 (interleaveTurns turns) := by
    unfold runChat
    rw [runChat_from turns [] (by simp)]
    rfl
  refine ⟨?_, hmain, ?_⟩
  · rw [hmain]
    exact lastN_le _ _
  · intro h25
    rw [hmain, lastN_length, interleaveTurns_length, h25]

/-- C9 witness: the theorem applied to 25 concrete chat turns. -/
theorem chat_history_bounded_witness :
    sampleTurns.length = 25 ∧ (runChat 10 sampleTurns).length = 20 :=
  ⟨rfl, (chat_history_bounded sampleTurns).2.2 rfl⟩

/-- Assigning a key of a Python dictionary makes lookup find exactly the
new value. -/
theorem lookup_setKey {α : Type} (t : List (String × α)) (k : String) (v : α) :
    (setKey t k v).lookup k = some v := by
  induction t with
  | nil => simp [setKey, List.lookup]
  | cons hd tl ih =>
    obtain ⟨k2, v2⟩ := hd
    by_cases hk : k2 = k
    · simp [setKey, hk, List.lookup]
    · have hne : (k == k2) = false := by
        simp only [beq_eq_false_iff_ne, ne_eq]
        exact fun hc => hk hc.symm
      simp [setKey, hk, List.lookup, hne, ih]

/-- C10: calling `start_session` with a session id already present in
the conversation table silently replaces that session's record with a
fresh one — empty message list, empty context, the new `started_at`
timestamp — discarding the prior conversation entirely, whatever it
contained. -/
theorem start_session_replaces (table : List (String × SessionRec)) (sid : String)
    (prior : SessionRec) (now generated_id : String)
    (_h : table.lookup sid = some prior) :
    (start_session table (some sid) now generated_id).2 = sid ∧
    ((start_session table (some sid) now generated_id).1).lookup sid
      = some { messages := [], context := [], started_at := now } :=
  ⟨rfl, lookup_setKey table sid _⟩

/-- C10 witness: the theorem applied to a concrete table holding a
non-empty prior conversation under the same id. -/
theorem start_session_replaces_witness :
    ([("s1", { messages := [{ role := "user", content := "old question",
                              timestamp := "T1" }]
               context := [("doc", "d1")]
               started_at := "T0" })] : List (String × SessionRec)).lookup "s1"
      = some { messages := [{ role := "user", content := "old question",
                              timestamp := "T1" }]
               context := [("doc", "d1")]
               started_at := "T0" } ∧
    ((start_session
        [("s1", { messages := [{ role := "user", content := "old question",
                                 timestamp := "T1" }]
                  context := [("doc", "d1")]
                  started_at := "T0" })] (some "s1") "T9" "gen").1).lookup "s1"
      = some { messages := [], context := [], started_at := "T9" } :=
  ⟨rfl,
    (start_session_replaces
      [("s1", { messages := [{ role := "user", content := "old question",
                               timestamp := "T1" }]
                context := [("doc", "d1")]
                started_at := "T0" })] "s1"
      { messages := [{ role := "user", content := "old question", timestamp := "T1" }]
        context := [("doc", "d1")]
        started_at := "T0" } "T9" "gen" rfl).2⟩

end ComplianceChecker
